import Mathlib

/-!
Verification development for the OSCE Live Skill Review application
(src/streamlit_app.py). The data model, the summary generator, the
session JSON codec and the UI event handlers are embedded as pure Lean
functions over an explicit session-state record. JSON documents are
modelled as the parsed value tree; the byte-level serialization and
parse performed by json.dumps / json.loads is the standard-library
boundary, so a payload that fails to parse is modelled as `none`.
-/

set_option autoImplicit false

namespace OSCE

/-- JSON value tree, as produced by json.loads. Objects keep the key
order of the document; keys of a parsed object are unique. Numbers are
modelled as rationals. -/
inductive Json where
  | null
  | bool (b : Bool)
  | num (q : Rat)
  | str (s : String)
  | arr (elems : List Json)
  | obj (fields : List (String × Json))

/-- Messages surfaced to the user via st.success / st.error /
st.warning / st.info. -/
inductive UiMsg where
  | success (s : String)
  | error (s : String)
  | warning (s : String)
  | info (s : String)
deriving DecidableEq

/-- True for the messages that report a failure to the user. -/
def UiMsg.isFailure : UiMsg → Bool
  | .error _ => true
  | .warning _ => true
  | _ => false

/-- RubricStatus constants (lines 18-21). -/
def RubricStatus.PENDING : String := "pending"

/-- RubricStatus constant MET (line 20). -/
def RubricStatus.MET : String := "met"

/-- RubricStatus constant NOT_MET (line 21). -/
def RubricStatus.NOT_MET : String := "not_met"

/-- RubricItem dataclass (lines 23-27). The status field defaults to
pending. -/
structure RubricItem where
  id : String
  skill : String
  status : String
deriving DecidableEq

/-- TranscriptEntry dataclass (lines 29-33). -/
structure TranscriptEntry where
  speaker : String
  text : String
  ts : Rat
deriving DecidableEq

/-- UserDetails dataclass (lines 35-39). -/
structure UserDetails where
  name : String
  phone : String
  designation : String
deriving DecidableEq

/-- Pending suggestion dictionary as built at line 260. -/
structure Suggestion where
  skillId : String
  status : String
  reasoning : String
deriving DecidableEq

/-- The per-user session state initialised at lines 95-105. -/
structure SessionState where
  session_status : String
  transcript : List TranscriptEntry
  rubric : List RubricItem
  suggested_update : Option Suggestion
  saved_session : Option Json
  start_time : Option Rat
  duration_seconds : Option Int
  user_details : Option UserDetails
  summary_text : Option String

/-- INITIAL_RUBRIC template (lines 42-48); every status is the default
pending. -/
def INITIAL_RUBRIC : List RubricItem :=
  [ ⟨"hand_hygiene", "Hand hygiene", RubricStatus.PENDING⟩,
    ⟨"introduce_self", "Introduces self to patient", RubricStatus.PENDING⟩,
    ⟨"explain_procedure", "Explains procedure", RubricStatus.PENDING⟩,
    ⟨"obtain_consent", "Obtains consent", RubricStatus.PENDING⟩,
    ⟨"maintain_privacy", "Maintains privacy and dignity", RubricStatus.PENDING⟩ ]

/-- The state right after the initialisation block (lines 95-105). -/
def initialState : SessionState :=
  ⟨"idle", [], INITIAL_RUBRIC, none, none, none, none, none, none⟩

/-- Python str.strip(): remove leading and trailing whitespace. -/
def pyStrip (s : String) : String :=
  String.mk (((s.data.dropWhile Char.isWhitespace).reverse.dropWhile Char.isWhitespace).reverse)

/-- Python sep.join(xs). -/
def joinWith (sep : String) : List String → String
  | [] => ""
  | [x] => x
  | x :: y :: xs => x ++ sep ++ joinWith sep (y :: xs)

/-- Python truthiness of a JSON-decoded value. -/
def jsonTruthy : Json → Bool
  | .null => false
  | .bool b => b
  | .num q => decide (q ≠ 0)
  | .str s => decide (s ≠ "")
  | .arr l => !l.isEmpty
  | .obj l => !l.isEmpty

/-- True when the Except value is an error. -/
def isErr {α : Type} : Except String α → Bool
  | .error _ => true
  | .ok _ => false

/-- Whether an object field list carries the given key. -/
def hasKey (fields : List (String × Json)) (k : String) : Bool :=
  (fields.map Prod.fst).contains k

/-- The participant name used by the greeting at line 81: the
user_details entry of the session state when it is set (a dataclass
instance is always truthy), otherwise the literal Student. -/
def displayName : Option UserDetails → String
  | some u => u.name
  | none => "Student"

/-- generate_local_summary (lines 71-89). The first argument embeds the
read of st.session_state user_details performed by the greeting line;
everything else is a function of the two parameters. -/
def generate_local_summary (ud : Option UserDetails)
    (transcript : List TranscriptEntry) (rubric : List RubricItem) : String :=
  let strengths := (rubric.filter (fun r => r.status == RubricStatus.MET)).map (fun r => r.skill)
  let needs := (rubric.filter (fun r => r.status == RubricStatus.NOT_MET)).map (fun r => r.skill)
  let student_lines := (transcript.filter (fun t => t.speaker == "user")).map (fun t => t.text)
  let recent : List String :=
    if student_lines.length ≥ 1 then student_lines.drop (student_lines.length - 3) else []
  let lines : List String := ["Dear " ++ displayName ud ++ ","]
  let lines := if !strengths.isEmpty then lines ++ ["Strengths: " ++ joinWith ", " strengths ++ "."] else lines
  let lines := if !needs.isEmpty then lines ++ ["Areas for improvement: " ++ joinWith ", " needs ++ "."] else lines
  let lines := if !recent.isEmpty then lines ++ ["Notes from the session: " ++ joinWith " / " recent] else lines
  let lines := lines ++ ["Suggestions: Practice the identified areas; follow checklist steps clearly during the examination."]
  joinWith "\n\n" lines

/-- Skills of the rubric items whose status is met, in rubric order
(line 73). -/
def met_skills (rubric : List RubricItem) : List String :=
  (rubric.filter (fun r => r.status == RubricStatus.MET)).map (fun r => r.skill)

/-- Skills of the rubric items whose status is not_met, in rubric order
(line 74). -/
def not_met_skills (rubric : List RubricItem) : List String :=
  (rubric.filter (fun r => r.status == RubricStatus.NOT_MET)).map (fun r => r.skill)

/-- Up to the last three transcript texts whose speaker is user; all of
them when fewer than three exist, none when none exist (lines 77-78). -/
def lastUserLines (transcript : List TranscriptEntry) : List String :=
  let ul := (transcript.filter (fun t => t.speaker == "user")).map (fun t => t.text)
  ul.drop (ul.length - 3)

/-- The Strengths section: one line when the met subset is non-empty,
nothing otherwise (lines 82-83). -/
def strengthsSection (rubric : List RubricItem) : List String :=
  if (met_skills rubric).isEmpty then []
  else ["Strengths: " ++ joinWith ", " (met_skills rubric) ++ "."]

/-- The Areas for improvement section: one line when the not_met subset
is non-empty, nothing otherwise (lines 84-85). -/
def needsSection (rubric : List RubricItem) : List String :=
  if (not_met_skills rubric).isEmpty then []
  else ["Areas for improvement: " ++ joinWith ", " (not_met_skills rubric) ++ "."]

/-- The Notes section: one line when recent student lines exist,
nothing otherwise (lines 86-87). -/
def notesSection (transcript : List TranscriptEntry) : List String :=
  if (lastUserLines transcript).isEmpty then []
  else ["Notes from the session: " ++ joinWith " / " (lastUserLines transcript)]

/-- The fixed closing sentence appended at line 88. -/
def closingLine : String :=
  "Suggestions: Practice the identified areas; follow checklist steps clearly during the examination."

/-- The summary text after the greeting: the sections joined by blank
lines, a function of the transcript and the rubric only. -/
def summaryBody (transcript : List TranscriptEntry) (rubric : List RubricItem) : String :=
  joinWith "\n\n" (strengthsSection rubric ++ needsSection rubric ++ notesSection transcript ++ [closingLine])

/-- Decode one transcript entry, as TranscriptEntry(**t) at line 118:
the keyword set must be exactly speaker, text, ts. Python dataclasses
do not check value types at run time; the embedding requires the
annotated types (strings and a number), which agrees with the source on
every document whose field values have those types. -/
def decodeTranscriptEntry (j : Json) : Except String TranscriptEntry :=
  match j with
  | .obj fields =>
    if hasKey fields "speaker" && hasKey fields "text" && hasKey fields "ts"
        && fields.all (fun kv => kv.1 == "speaker" || kv.1 == "text" || kv.1 == "ts") then
      match fields.lookup "speaker", fields.lookup "text", fields.lookup "ts" with
      | some (.str sp), some (.str tx), some (.num n) => .ok ⟨sp, tx, n⟩
      | _, _, _ => .error "transcript entry field has an unexpected type"
    else .error "transcript entry does not have exactly the TranscriptEntry fields"
  | _ => .error "transcript entry is not a JSON object"

/-- Decode one rubric item, as RubricItem(**r) at line 119: keys id and
skill are required, status is optional and defaults to pending; no
other key is accepted. The same run-time typing caveat as for
transcript entries applies. -/
def decodeRubricItem (j : Json) : Except String RubricItem :=
  match j with
  | .obj fields =>
    if hasKey fields "id" && hasKey fields "skill"
        && fields.all (fun kv => kv.1 == "id" || kv.1 == "skill" || kv.1 == "status") then
      match fields.lookup "id", fields.lookup "skill" with
      | some (.str i), some (.str sk) =>
        match fields.lookup "status" with
        | none => .ok ⟨i, sk, RubricStatus.PENDING⟩
        | some (.str st) => .ok ⟨i, sk, st⟩
        | some _ => .error "rubric item status is not a string"
      | _, _ => .error "rubric item id or skill is not a string"
    else .error "rubric item does not have exactly the RubricItem fields"
  | _ => .error "rubric item is not a JSON object"

/-- Decode user details, as UserDetails(**ud) at line 122: the keyword
set must be exactly name, phone, designation. -/
def decodeUserDetails (j : Json) : Except String UserDetails :=
  match j with
  | .obj fields =>
    if hasKey fields "name" && hasKey fields "phone" && hasKey fields "designation"
        && fields.all (fun kv => kv.1 == "name" || kv.1 == "phone" || kv.1 == "designation") then
      match fields.lookup "name", fields.lookup "phone", fields.lookup "designation" with
      | some (.str n), some (.str p), some (.str d) => .ok ⟨n, p, d⟩
      | _, _, _ => .error "user_details field is not a string"
    else .error "user_details does not have exactly the UserDetails fields"
  | _ => .error "user_details is not a JSON object"

/-- Left-to-right decoding of a JSON list, stopping at the first
failing element, as the list comprehensions at lines 118-119 do. -/
def decodeList {α : Type} (dec : Json → Except String α) : List Json → Except String (List α)
  | [] => .ok []
  | j :: js =>
    match dec j with
    | .error e => .error e
    | .ok a =>
      match decodeList dec js with
      | .error e => .error e
      | .ok as => .ok (a :: as)

/-- data.get(key, []) followed by iteration (lines 118-119): the
payload must be a JSON object; a missing key yields the empty list; a
present key must hold a JSON array. -/
def getListDefault (data : Json) (key : String) : Except String (List Json) :=
  match data with
  | .obj fields =>
    match fields.lookup key with
    | none => .ok []
    | some (.arr l) => .ok l
    | some _ => .error ("the " ++ key ++ " value is not a list")
  | _ => .error "payload is not a JSON object"

/-- Restoring the transcript from the payload (line 118). -/
def transcriptStage (data : Json) : Except String (List TranscriptEntry) :=
  (getListDefault data "transcript").bind (fun l => decodeList decodeTranscriptEntry l)

/-- Restoring the rubric from the payload (line 119). -/
def rubricStage (data : Json) : Except String (List RubricItem) :=
  (getListDefault data "rubric").bind (fun l => decodeList decodeRubricItem l)

/-- Restoring the user details from the payload (lines 120-122): a
missing or falsy user_details value is skipped, a truthy one must
decode. -/
def udStage (data : Json) : Except String (Option UserDetails) :=
  match data with
  | .obj fields =>
    match fields.lookup "user_details" with
    | none => .ok none
    | some v => if jsonTruthy v then (decodeUserDetails v).map some else .ok none
  | _ => .error "payload is not a JSON object"

/-- Bundle returned by a successful decode: the fields the persisted
document restores. A none user_details means the stored value was
absent or falsy and the in-memory value is kept. -/
structure DecodedSession where
  transcript : List TranscriptEntry
  rubric : List RubricItem
  user_details : Option UserDetails
deriving DecidableEq

/-- The full decode pipeline of the load handler (lines 116-122),
viewed as one function from a parse result to the restored fields;
none models a payload json.loads rejects. -/
def decodeSession : Option Json → Except String DecodedSession
  | none => .error "invalid JSON"
  | some data => do
    let t ← transcriptStage data
    let r ← rubricStage data
    let u ← udStage data
    .ok ⟨t, r, u⟩

/-- The load handler (lines 113-126): each restore stage assigns its
session-state field as soon as it succeeds; an exception at a later
stage leaves the earlier assignments in place, the except block reports
the error, and only full success sets session_status to ended. -/
def loadHandler (s : SessionState) (payload : Option Json) : SessionState × List UiMsg :=
  match payload with
  | none => (s, [UiMsg.error "Failed to load session: invalid JSON"])
  | some data =>
    match transcriptStage data with
    | .error e => (s, [UiMsg.error ("Failed to load session: " ++ e)])
    | .ok t =>
      let s1 := { s with transcript := t }
      match rubricStage data with
      | .error e => (s1, [UiMsg.error ("Failed to load session: " ++ e)])
      | .ok r =>
        let s2 := { s1 with rubric := r }
        match udStage data with
        | .error e => (s2, [UiMsg.error ("Failed to load session: " ++ e)])
        | .ok ou =>
          let s3 := match ou with
            | some u => { s2 with user_details := some u }
            | none => s2
          ({ s3 with session_status := "ended" }, [UiMsg.success "Session loaded from file."])

/-- asdict of a TranscriptEntry, in dataclass field order (line 131). -/
def encodeTranscriptEntry (e : TranscriptEntry) : Json :=
  .obj [("speaker", .str e.speaker), ("text", .str e.text), ("ts", .num e.ts)]

/-- asdict of a RubricItem, in dataclass field order (line 132). -/
def encodeRubricItem (r : RubricItem) : Json :=
  .obj [("id", .str r.id), ("skill", .str r.skill), ("status", .str r.status)]

/-- asdict of a UserDetails, in dataclass field order (line 130). -/
def encodeUserDetails (u : UserDetails) : Json :=
  .obj [("name", .str u.name), ("phone", .str u.phone), ("designation", .str u.designation)]

/-- The session dump built by the sidebar download handler
(lines 129-134). -/
def encodeSession (s : SessionState) : Json :=
  .obj [ ("user_details", match s.user_details with
           | some u => encodeUserDetails u
           | none => .null),
         ("transcript", .arr (s.transcript.map encodeTranscriptEntry)),
         ("rubric", .arr (s.rubric.map encodeRubricItem)),
         ("summary", match s.summary_text with
           | some t => .str t
           | none => .null) ]

/-- The add_transcript form handler (lines 224-232): text that is empty
after trimming does nothing and shows nothing; otherwise the trimmed
text is appended and a success message is shown. -/
def addTranscriptHandler (s : SessionState) (speaker text : String) (now : Rat) :
    SessionState × List UiMsg :=
  if pyStrip text ≠ "" then
    ({ s with transcript := s.transcript ++ [⟨speaker, pyStrip text, now⟩] },
     [UiMsg.success "Added."])
  else (s, [])

/-- The rubric update pattern of the accept-suggestion loop
(lines 270-272): set the status of every item whose id matches. -/
def set_rubric_status (rubric : List RubricItem) (item_id new_status : String) :
    List RubricItem :=
  rubric.map (fun r => if r.id == item_id then { r with status := new_status } else r)

/-- The Accept suggestion button handler (lines 268-276). The button is
rendered only while a suggestion is pending, so the operation is
unavailable (none) otherwise. -/
def acceptSuggestionHandler (s : SessionState) (now : Rat) :
    Option (SessionState × List UiMsg) :=
  match s.suggested_update with
  | none => none
  | some su =>
    some ({ s with
            rubric := set_rubric_status s.rubric su.skillId su.status,
            transcript := s.transcript ++ [⟨"system", "Suggestion accepted for " ++ su.skillId, now⟩],
            suggested_update := none },
          [UiMsg.success "Suggestion accepted."])

/-- The Reject suggestion button handler (lines 277-281): only the
system transcript entry is appended, the rubric is untouched. -/
def rejectSuggestionHandler (s : SessionState) (now : Rat) :
    Option (SessionState × List UiMsg) :=
  match s.suggested_update with
  | none => none
  | some su =>
    some ({ s with
            transcript := s.transcript ++ [⟨"system", "Suggestion rejected for " ++ su.skillId, now⟩],
            suggested_update := none },
          [UiMsg.success "Suggestion rejected."])

/-- The Mark all pending as not met button handler (lines 332-336). -/
def bulkResolvePendingHandler (s : SessionState) : SessionState × List UiMsg :=
  ({ s with rubric := s.rubric.map (fun r =>
      if r.status == RubricStatus.PENDING then { r with status := RubricStatus.NOT_MET } else r) },
   [UiMsg.success "Updated pending items."])

/-- Folding a sequence of add_transcript submissions over a state. -/
def runAddCalls (s : SessionState) (calls : List (String × String × Rat)) : SessionState :=
  calls.foldl (fun st c => (addTranscriptHandler st c.1 c.2.1 c.2.2).1) s

/-- Top-level keys of a JSON object. -/
def topLevelKeys : Json → List String
  | .obj fields => fields.map Prod.fst
  | _ => []

/-- Payload whose transcript section is valid but whose rubric item
lacks the required skill field. -/
def c2Payload : Json :=
  .obj [ ("transcript", .arr [.obj [("speaker", .str "user"), ("text", .str "Hi doctor"), ("ts", .num 1)]]),
         ("rubric", .arr [.obj [("id", .str "a")]]) ]

/-- Fresh state carrying a pending suggestion whose skillId matches no
rubric item; reachable by proposing a suggestion for a loaded rubric
and then clearing the rubric back to the initial template. -/
def c6State : SessionState :=
  { initialState with suggested_update := some ⟨"zzz", "met", ""⟩ }

/-- State for the suggestion scenario: one rubric item a with a pending
suggestion to mark it not_met. -/
def c8State : SessionState :=
  { initialState with
    rubric := [⟨"a", "Hand hygiene", "pending"⟩],
    suggested_update := some ⟨"a", "not_met", "observed lapse"⟩ }

/-- State for the bulk-resolve scenario: two pending items and one met
item. -/
def c9State : SessionState :=
  { initialState with
    rubric := [⟨"a", "A", "pending"⟩, ⟨"b", "B", "met"⟩, ⟨"c", "C", "pending"⟩] }

/-- joinWith on a cons whose tail is non-empty splits off the head. -/
theorem joinWith_cons (sep x : String) (l : List String) (h : l ≠ []) :
    joinWith sep (x :: l) = x ++ sep ++ joinWith sep l := by
  cases l with
  | nil => exact absurd rfl h
  | cons y ys => rfl

/-- decodeList over a map succeeds pointwise. -/
theorem decodeList_map {α β : Type} (dec : Json → Except String α) (f : β → Json)
    (g : β → α) (h : ∀ b, dec (f b) = .ok (g b)) (l : List β) :
    decodeList dec (l.map f) = .ok (l.map g) := by
  induction l with
  | nil => rfl
  | cons b bs ih => simp [decodeList, h, ih]

/-- A failing element makes decodeList fail. -/
theorem decodeList_err_of_mem {α : Type} (dec : Json → Except String α) (j : Json)
    (l : List Json) : j ∈ l → isErr (dec j) = true → isErr (decodeList dec l) = true := by
  induction l with
  | nil => intro hm _; cases hm
  | cons a as ih =>
    intro hm he
    cases hd : dec a with
    | error e => simp [decodeList, hd, isErr]
    | ok a2 =>
      rcases List.mem_cons.mp hm with h1 | h1
      · subst h1; rw [hd] at he; simp [isErr] at he
      · have h3 := ih h1 he
        cases hds : decodeList dec as with
        | error e => simp [decodeList, hd, hds, isErr]
        | ok as2 => rw [hds] at h3; simp [isErr] at h3

/-- A failing transcript stage makes the whole decode fail. -/
theorem isErr_decodeSession_of_stage1 (d : Json)
    (h : isErr (transcriptStage d) = true) : isErr (decodeSession (some d)) = true := by
  simp only [decodeSession]
  cases ht : transcriptStage d with
  | error e => rfl
  | ok t => rw [ht] at h; simp [isErr] at h

/-- A failing rubric stage makes the whole decode fail. -/
theorem isErr_decodeSession_of_stage2 (d : Json)
    (h : isErr (rubricStage d) = true) : isErr (decodeSession (some d)) = true := by
  simp only [decodeSession]
  cases ht : transcriptStage d with
  | error e => rfl
  | ok t =>
    cases hr : rubricStage d with
    | error e => rfl
    | ok r => rw [hr] at h; simp [isErr] at h

/-- Decoding inverts encoding on transcript entries. -/
theorem decodeTranscriptEntry_enc (e : TranscriptEntry) :
    decodeTranscriptEntry (encodeTranscriptEntry e) = .ok e := rfl

/-- Decoding inverts encoding on rubric items. -/
theorem decodeRubricItem_enc (r : RubricItem) :
    decodeRubricItem (encodeRubricItem r) = .ok r := rfl

/-- Decoding inverts encoding on user details. -/
theorem decodeUserDetails_enc (u : UserDetails) :
    decodeUserDetails (encodeUserDetails u) = .ok u := rfl

/-- The transcript stage of decode inverts encode. -/
theorem transcriptStage_enc (s : SessionState) :
    transcriptStage (encodeSession s) = .ok s.transcript := by
  have h : transcriptStage (encodeSession s)
      = decodeList decodeTranscriptEntry (s.transcript.map encodeTranscriptEntry) := rfl
  rw [h, decodeList_map decodeTranscriptEntry encodeTranscriptEntry id
    (fun e => decodeTranscriptEntry_enc e) s.transcript, List.map_id]

/-- The rubric stage of decode inverts encode. -/
theorem rubricStage_enc (s : SessionState) :
    rubricStage (encodeSession s) = .ok s.rubric := by
  have h : rubricStage (encodeSession s)
      = decodeList decodeRubricItem (s.rubric.map encodeRubricItem) := rfl
  rw [h, decodeList_map decodeRubricItem encodeRubricItem id
    (fun r => decodeRubricItem_enc r) s.rubric, List.map_id]

/-- The user-details stage of decode inverts encode. -/
theorem udStage_enc (s : SessionState) :
    udStage (encodeSession s) = .ok s.user_details := by
  obtain ⟨st, tr, ru, su, sa, ti, du, ud, sm⟩ := s
  cases ud <;> rfl

/-- decodeSession is determined by its three stages. -/
theorem decodeSession_eq_of_stages (d : Json) (t : List TranscriptEntry)
    (r : List RubricItem) (u : Option UserDetails)
    (h1 : transcriptStage d = .ok t) (h2 : rubricStage d = .ok r)
    (h3 : udStage d = .ok u) : decodeSession (some d) = .ok ⟨t, r, u⟩ := by
  simp only [decodeSession]
  rw [h1, h2, h3]
  rfl

/-- C3: for every session state, decoding the encoded session restores
the transcript, rubric and user_details fields structurally equal to
the originals; the persisted document carries only the keys
user_details, transcript, rubric and summary, and a full load sets the
session status to ended while leaving start_time and duration_seconds
untouched rather than restoring them. -/
theorem round_trip_restores_fields (s : SessionState) :
    decodeSession (some (encodeSession s)) = .ok ⟨s.transcript, s.rubric, s.user_details⟩
    ∧ loadHandler s (some (encodeSession s))
        = ({ s with session_status := "ended" }, [UiMsg.success "Session loaded from file."])
    ∧ topLevelKeys (encodeSession s) = ["user_details", "transcript", "rubric", "summary"] := by
  refine ⟨decodeSession_eq_of_stages _ _ _ _ (transcriptStage_enc s) (rubricStage_enc s) (udStage_enc s), ?_, rfl⟩
  simp only [loadHandler]
  rw [transcriptStage_enc, rubricStage_enc, udStage_enc]
  cases s.user_details <;> rfl

/-- C10: a persisted rubric item carrying the required id and skill
fields but no status field decodes successfully, and every restored
item gets the default status pending; a whole document made of such
items decodes to a rubric of pending items. -/
theorem decode_defaults_missing_status (ps : List (String × String)) :
    decodeSession (some (.obj [ ("transcript", .arr []),
        ("rubric", .arr (ps.map (fun p => .obj [("id", .str p.1), ("skill", .str p.2)]))) ]))
      = .ok ⟨[], ps.map (fun p => ⟨p.1, p.2, RubricStatus.PENDING⟩), none⟩ := by
  apply decodeSession_eq_of_stages
  · rfl
  · have h : rubricStage (.obj [ ("transcript", .arr []),
        ("rubric", .arr (ps.map (fun p => .obj [("id", .str p.1), ("skill", .str p.2)]))) ])
        = decodeList decodeRubricItem (ps.map (fun p => .obj [("id", .str p.1), ("skill", .str p.2)])) := rfl
    rw [h, decodeList_map decodeRubricItem
      (fun p : String × String => Json.obj [("id", Json.str p.1), ("skill", Json.str p.2)])
      (fun p => (⟨p.1, p.2, RubricStatus.PENDING⟩ : RubricItem))
      (fun p => rfl) ps]
  · rfl

/-- C5: decode fails whenever the payload is not valid JSON, whenever a
transcript entry lacks one of the required fields speaker, text or ts,
and whenever a rubric item lacks id or skill; in particular a document
whose transcript holds an entry without its text field makes the whole
decode fail instead of producing an entry with an empty-string text. -/
theorem decode_rejects_missing_fields :
    isErr (decodeSession none) = true
    ∧ (∀ fields : List (String × Json), hasKey fields "speaker" = false →
        isErr (decodeTranscriptEntry (.obj fields)) = true)
    ∧ (∀ fields : List (String × Json), hasKey fields "text" = false →
        isErr (decodeTranscriptEntry (.obj fields)) = true)
    ∧ (∀ fields : List (String × Json), hasKey fields "ts" = false →
        isErr (decodeTranscriptEntry (.obj fields)) = true)
    ∧ (∀ fields : List (String × Json), hasKey fields "id" = false →
        isErr (decodeRubricItem (.obj fields)) = true)
    ∧ (∀ fields : List (String × Json), hasKey fields "skill" = false →
        isErr (decodeRubricItem (.obj fields)) = true)
    ∧ (∀ (fields : List (String × Json)) (entries : List Json) (j : Json),
        fields.lookup "transcript" = some (.arr entries) → j ∈ entries →
        isErr (decodeTranscriptEntry j) = true →
        isErr (decodeSession (some (.obj fields))) = true)
    ∧ (∀ (fields : List (String × Json)) (entries : List Json) (j : Json),
        fields.lookup "rubric" = some (.arr entries) → j ∈ entries →
        isErr (decodeRubricItem j) = true →
        isErr (decodeSession (some (.obj fields))) = true) := by
  refine ⟨rfl, ?_, ?_, ?_, ?_, ?_, ?_, ?_⟩
  · intro fields h; simp [decodeTranscriptEntry, h, isErr]
  · intro fields h; simp [decodeTranscriptEntry, h, isErr]
  · intro fields h; simp [decodeTranscriptEntry, h, isErr]
  · intro fields h; simp [decodeRubricItem, h, isErr]
  · intro fields h; simp [decodeRubricItem, h, isErr]
  · intro fields entries j hl hm he
    have h1 : isErr (transcriptStage (.obj fields)) = true := by
      have h2 : transcriptStage (.obj fields) = decodeList decodeTranscriptEntry entries := by
        simp only [transcriptStage, getListDefault, hl]
        rfl
      rw [h2]; exact decodeList_err_of_mem _ _ _ hm he
    exact isErr_decodeSession_of_stage1 _ h1
  · intro fields entries j hl hm he
    have h1 : isErr (rubricStage (.obj fields)) = true := by
      have h2 : rubricStage (.obj fields) = decodeList decodeRubricItem entries := by
        simp only [rubricStage, getListDefault, hl]
        rfl
      rw [h2]; exact decodeList_err_of_mem _ _ _ hm he
    exact isErr_decodeSession_of_stage2 _ h1

/-- Witness for the missing-field rejections: a transcript entry object
without its text field is rejected on its own, and a document holding
such an entry is rejected as a whole. -/
theorem decode_rejects_missing_fields_witness :
    isErr (decodeTranscriptEntry (Json.obj [("speaker", Json.str "user"), ("ts", Json.num 1)])) = true
    ∧ isErr (decodeSession (some (Json.obj [("transcript",
        Json.arr [Json.obj [("speaker", Json.str "user"), ("ts", Json.num 1)]])]))) = true :=
  ⟨decode_rejects_missing_fields.2.2.1 _ (by decide),
   decode_rejects_missing_fields.2.2.2.2.2.2.1 _ _ _ rfl (List.Mem.head _) rfl⟩

/-- The guarded slice at line 78 equals the plain last-three slice
because slicing an empty list already yields the empty list. -/
theorem recent_eq (l : List String) :
    (if l.length ≥ 1 then l.drop (l.length - 3) else []) = l.drop (l.length - 3) := by
  cases l with
  | nil => rfl
  | cons a as => exact if_pos (Nat.succ_le_succ (Nat.zero_le _))

/-- The summary is the greeting followed by the three optional sections
and the fixed closing line, joined by blank lines. -/
theorem generate_local_summary_eq (ud : Option UserDetails)
    (t : List TranscriptEntry) (r : List RubricItem) :
    generate_local_summary ud t r
      = joinWith "\n\n" (("Dear " ++ displayName ud ++ ",") ::
          (strengthsSection r ++ needsSection r ++ notesSection t ++ [closingLine])) := by
  simp only [generate_local_summary, strengthsSection, needsSection, notesSection,
    met_skills, not_met_skills, lastUserLines, closingLine, recent_eq]
  cases hS : ((r.filter (fun r => r.status == RubricStatus.MET)).map (fun r => r.skill)).isEmpty <;>
    cases hN : ((r.filter (fun r => r.status == RubricStatus.NOT_MET)).map (fun r => r.skill)).isEmpty <;>
      cases hR : (((t.filter (fun t => t.speaker == "user")).map (fun t => t.text)).drop
        (((t.filter (fun t => t.speaker == "user")).map (fun t => t.text)).length - 3)).isEmpty <;>
    simp [hS, hN, hR, joinWith]

/-- C1 counterexample: two calls with identical (transcript, rubric)
arguments produce different outputs when the session user_details held
outside the two arguments differ, so the output does depend on hidden
state. -/
theorem summary_depends_on_hidden_user_details :
    generate_local_summary (some ⟨"Alice", "", ""⟩) [] []
      ≠ generate_local_summary (some ⟨"Bob", "", ""⟩) [] [] := by decide

/-- C1 amended: generate_summary is deterministic, and its dependence
on state outside (transcript, rubric) is confined to the greeting: the
output is the greeting built from the session user_details followed by
a body that is a pure function of the two arguments alone. -/
theorem summary_factors_through_greeting (ud : Option UserDetails)
    (t : List TranscriptEntry) (r : List RubricItem) :
    generate_local_summary ud t r
      = ("Dear " ++ displayName ud ++ ",") ++ "\n\n" ++ summaryBody t r := by
  rw [generate_local_summary_eq]
  have h : strengthsSection r ++ needsSection r ++ notesSection t ++ [closingLine] ≠ [] := by
    simp
  rw [joinWith_cons _ _ _ h]
  rfl

set_option maxRecDepth 8192 in
/-- C4: the summary partitions the rubric in rubric order into met and
not_met skill lists, keeps up to the last three user-speaker transcript
texts, emits the Strengths, Areas for improvement and Notes sections
only when their content is non-empty, always ends with the fixed
closing suggestion sentence, and joins the emitted sections by blank
lines with no artifacts for omitted sections; on the specification
scenario it produces exactly the expected text. -/
theorem summary_follows_algorithm :
    (∀ (ud : Option UserDetails) (t : List TranscriptEntry) (r : List RubricItem),
      generate_local_summary ud t r
        = joinWith "\n\n" (("Dear " ++ displayName ud ++ ",") ::
            (strengthsSection r ++ needsSection r ++ notesSection t ++ [closingLine])))
    ∧ generate_local_summary none [⟨"user", "Hi doctor", 1⟩]
        [⟨"a", "Hand hygiene", "met"⟩, ⟨"b", "Consent", "not_met"⟩]
      = "Dear Student,\n\nStrengths: Hand hygiene.\n\nAreas for improvement: Consent.\n\nNotes from the session: Hi doctor\n\nSuggestions: Practice the identified areas; follow checklist steps clearly during the examination." :=
  ⟨generate_local_summary_eq, by decide⟩

/-- C2 counterexample: on a payload whose transcript section is valid
but whose rubric item lacks the required skill field, the load handler
reports a failure yet leaves the transcript already overwritten, so the
failing operation did mutate part of the session state. -/
theorem load_failure_mutates_transcript :
    (loadHandler initialState (some c2Payload)).2.any UiMsg.isFailure = true
    ∧ (loadHandler initialState (some c2Payload)).1.transcript ≠ initialState.transcript
    ∧ (loadHandler initialState (some c2Payload)).1.transcript = [⟨"user", "Hi doctor", 1⟩] :=
  ⟨rfl, by decide, rfl⟩

/-- C2 amended: atomicity holds only up to the first failing restore
stage. A payload that is not valid JSON, or whose transcript section
fails to decode, leaves the state unchanged; a failure in the rubric
stage leaves the restored transcript in place; a failure in the
user_details stage leaves the restored transcript and rubric in place;
and no failing load ever changes the session status. -/
theorem load_failure_atomicity :
    (∀ s : SessionState,
      loadHandler s none = (s, [UiMsg.error "Failed to load session: invalid JSON"]))
    ∧ (∀ (s : SessionState) (d : Json) (e : String),
        transcriptStage d = .error e → (loadHandler s (some d)).1 = s)
    ∧ (∀ (s : SessionState) (d : Json) (t : List TranscriptEntry) (e : String),
        transcriptStage d = .ok t → rubricStage d = .error e →
        (loadHandler s (some d)).1 = { s with transcript := t })
    ∧ (∀ (s : SessionState) (d : Json) (t : List TranscriptEntry) (r : List RubricItem) (e : String),
        transcriptStage d = .ok t → rubricStage d = .ok r → udStage d = .error e →
        (loadHandler s (some d)).1 = { s with transcript := t, rubric := r })
    ∧ (∀ (s : SessionState) (p : Option Json),
        (loadHandler s p).2.any UiMsg.isFailure = true →
        (loadHandler s p).1.session_status = s.session_status) := by
  refine ⟨fun s => rfl, ?_, ?_, ?_, ?_⟩
  · intro s d e h
    simp only [loadHandler]
    rw [h]
  · intro s d t e h1 h2
    simp only [loadHandler]
    rw [h1, h2]
  · intro s d t r e h1 h2 h3
    simp only [loadHandler]
    rw [h1, h2, h3]
  · intro s p h
    cases p with
    | none => rfl
    | some d =>
      simp only [loadHandler] at h ⊢
      cases ht : transcriptStage d with
      | error e => rfl
      | ok t =>
        cases hr : rubricStage d with
        | error e => rfl
        | ok r =>
          cases hu : udStage d with
          | error e => rfl
          | ok ou =>
            rw [ht, hr, hu] at h
            simp [UiMsg.isFailure] at h

/-- Witness for the staged atomicity statement: loading the concrete
payload with a valid transcript and a malformed rubric leaves exactly
the transcript mutated. -/
theorem load_failure_atomicity_witness :
    (loadHandler initialState (some c2Payload)).1
      = { initialState with transcript := [⟨"user", "Hi doctor", 1⟩] } :=
  load_failure_atomicity.2.2.1 initialState c2Payload [⟨"user", "Hi doctor", 1⟩]
    "rubric item does not have exactly the RubricItem fields" rfl rfl

/-- Mapping the status-update function over a rubric without the target
id changes nothing. -/
theorem map_setStatus_id (rubric : List RubricItem) (item_id new_status : String)
    (h : ∀ r ∈ rubric, r.id ≠ item_id) :
    rubric.map (fun r => if r.id == item_id then { r with status := new_status } else r)
      = rubric := by
  induction rubric with
  | nil => rfl
  | cons a as ih =>
    have ha : a.id ≠ item_id := h a (List.mem_cons_self a as)
    have htail := ih (fun r hr => h r (List.mem_cons_of_mem a hr))
    have hbeq : (a.id == item_id) = false := beq_eq_false_iff_ne.mpr ha
    simp only [List.map_cons, htail, hbeq]
    simp

/-- Members of the zip of a list with its map are pointwise related. -/
theorem mem_zip_map {α β : Type} (f : α → β) (l : List α) (p : α × β)
    (hp : p ∈ l.zip (l.map f)) : p.2 = f p.1 := by
  induction l with
  | nil => cases hp
  | cons a as ih =>
    rcases List.mem_cons.mp hp with h | h
    · rw [h]
    · exact ih h

/-- C6 counterexample: with a pending suggestion whose skillId matches
no rubric item, the accept handler leaves every rubric item unchanged
but completes with a success message and no failure message, so the
unknown id is not reported as a failure. -/
theorem unknown_id_update_reports_success :
    c6State.rubric.all (fun r => r.id != "zzz") = true
    ∧ c6State.suggested_update = some ⟨"zzz", "met", ""⟩
    ∧ (acceptSuggestionHandler c6State 0).map (fun p => (p.1.rubric, p.2.any UiMsg.isFailure))
        = some (c6State.rubric, false) :=
  ⟨rfl, rfl, rfl⟩

/-- C6 amended: setting a rubric status with an item_id that matches no
rubric item leaves every item unchanged, but the code reports no
failure: the accept handler still completes with a success message and
no failure message. With an item_id carried by exactly one item, the
update overwrites exactly that item status and no other field of any
item. -/
theorem set_rubric_status_behavior :
    (∀ (rubric : List RubricItem) (item_id new_status : String),
      (∀ r ∈ rubric, r.id ≠ item_id) →
      set_rubric_status rubric item_id new_status = rubric)
    ∧ (∀ (pre post : List RubricItem) (x : RubricItem) (new_status : String),
        (∀ r ∈ pre, r.id ≠ x.id) → (∀ r ∈ post, r.id ≠ x.id) →
        set_rubric_status (pre ++ x :: post) x.id new_status
          = pre ++ { x with status := new_status } :: post)
    ∧ (∀ (s : SessionState) (su : Suggestion) (now : Rat),
        s.suggested_update = some su →
        (∀ r ∈ s.rubric, r.id ≠ su.skillId) →
        (acceptSuggestionHandler s now).map (fun p => (p.1.rubric, p.2.any UiMsg.isFailure))
          = some (s.rubric, false)) := by
  refine ⟨?_, ?_, ?_⟩
  · intro rubric item_id new_status h
    exact map_setStatus_id rubric item_id new_status h
  · intro pre post x new_status h1 h2
    have hpre := map_setStatus_id pre x.id new_status h1
    have hpost := map_setStatus_id post x.id new_status h2
    simp only [set_rubric_status, List.map_append, List.map_cons]
    rw [hpre, hpost]
    simp
  · intro s su now hsu h
    have hmap : set_rubric_status s.rubric su.skillId su.status = s.rubric :=
      map_setStatus_id s.rubric su.skillId su.status h
    simp only [acceptSuggestionHandler, hsu]
    rw [hmap]
    rfl

/-- Witness for the rubric status update: an unknown id changes nothing
and a known unique id overwrites exactly that item. -/
theorem set_rubric_status_behavior_witness :
    set_rubric_status [⟨"a", "A", "pending"⟩] "zzz" "met" = [⟨"a", "A", "pending"⟩]
    ∧ set_rubric_status [⟨"a", "A", "pending"⟩, ⟨"b", "B", "pending"⟩] "b" "met"
        = [⟨"a", "A", "pending"⟩, ⟨"b", "B", "met"⟩] :=
  ⟨set_rubric_status_behavior.1 _ _ _ (by decide),
   set_rubric_status_behavior.2.1 [⟨"a", "A", "pending"⟩] [] ⟨"b", "B", "pending"⟩ "met"
     (by decide) (by decide)⟩

/-- C7 counterexample: submitting text that is empty after trimming is
a no-op, but nothing at all is surfaced: the handler emits no message,
in particular no failure. -/
theorem empty_text_noop_is_silent :
    (addTranscriptHandler initialState "user" "   " 0).2 = []
    ∧ (addTranscriptHandler initialState "user" "   " 0).1.transcript
        = initialState.transcript :=
  ⟨rfl, rfl⟩

/-- Transcript accumulated by a call sequence: the starting transcript
followed by one entry per call whose text is non-empty after trimming,
in call order, carrying the trimmed text. -/
theorem runAddCalls_transcript (s : SessionState) (calls : List (String × String × Rat)) :
    (runAddCalls s calls).transcript
      = s.transcript ++ (calls.filter (fun c => pyStrip c.2.1 != "")).map
          (fun c => ⟨c.1, pyStrip c.2.1, c.2.2⟩) := by
  induction calls generalizing s with
  | nil => simp [runAddCalls]
  | cons c cs ih =>
    have step : runAddCalls s (c :: cs)
        = runAddCalls ((addTranscriptHandler s c.1 c.2.1 c.2.2).1) cs := rfl
    rw [step, ih]
    by_cases hc : pyStrip c.2.1 = ""
    · simp [addTranscriptHandler, hc]
    · simp [addTranscriptHandler, hc]

/-- C7 amended: text that is empty after trimming is a silent no-op
(state unchanged and no message, so no failure is surfaced); any other
text appends exactly one entry holding the trimmed text, and for every
call sequence the transcript grows by exactly the calls whose text is
non-empty after trimming, in call order. -/
theorem append_transcript_length_law :
    (∀ (s : SessionState) (speaker text : String) (now : Rat),
      pyStrip text = "" → addTranscriptHandler s speaker text now = (s, []))
    ∧ (∀ (s : SessionState) (speaker text : String) (now : Rat),
      pyStrip text ≠ "" →
      addTranscriptHandler s speaker text now
        = ({ s with transcript := s.transcript ++ [⟨speaker, pyStrip text, now⟩] },
           [UiMsg.success "Added."]))
    ∧ (∀ (s : SessionState) (calls : List (String × String × Rat)),
      (runAddCalls s calls).transcript
        = s.transcript ++ (calls.filter (fun c => pyStrip c.2.1 != "")).map
            (fun c => ⟨c.1, pyStrip c.2.1, c.2.2⟩))
    ∧ (∀ (s : SessionState) (calls : List (String × String × Rat)),
      (runAddCalls s calls).transcript.length
        = s.transcript.length + (calls.filter (fun c => pyStrip c.2.1 != "")).length) := by
  refine ⟨?_, ?_, runAddCalls_transcript, ?_⟩
  · intro s speaker text now h
    simp [addTranscriptHandler, h]
  · intro s speaker text now h
    simp [addTranscriptHandler, h]
  · intro s calls
    rw [runAddCalls_transcript]
    simp

/-- Witness for the append law: a padded text is appended trimmed with
a success message, and a whitespace-only text is a silent no-op. -/
theorem append_transcript_length_law_witness :
    addTranscriptHandler initialState "user" "  hi  " 1
      = ({ initialState with transcript := [⟨"user", "hi", 1⟩] }, [UiMsg.success "Added."])
    ∧ addTranscriptHandler initialState "user" " " 1 = (initialState, []) :=
  ⟨append_transcript_length_law.2.1 initialState "user" "  hi  " 1 (by decide),
   append_transcript_length_law.1 initialState "user" " " 1 (by decide)⟩

/-- C8: with a pending suggestion, accept applies the suggested status
to the rubric items matching the suggestion skillId and appends one
system-speaker transcript entry, reject appends only the system entry
and leaves the rubric untouched, both clear the pending suggestion and
change nothing else; without a pending suggestion neither operation is
available. -/
theorem suggestion_accept_reject_behavior :
    (∀ (s : SessionState) (now : Rat), s.suggested_update = none →
      acceptSuggestionHandler s now = none ∧ rejectSuggestionHandler s now = none)
    ∧ (∀ (s : SessionState) (su : Suggestion) (now : Rat), s.suggested_update = some su →
      ∃ s2, acceptSuggestionHandler s now = some (s2, [UiMsg.success "Suggestion accepted."])
        ∧ s2.rubric = set_rubric_status s.rubric su.skillId su.status
        ∧ s2.transcript = s.transcript ++ [⟨"system", "Suggestion accepted for " ++ su.skillId, now⟩]
        ∧ s2.suggested_update = none
        ∧ s2.session_status = s.session_status
        ∧ s2.user_details = s.user_details
        ∧ s2.summary_text = s.summary_text)
    ∧ (∀ (s : SessionState) (su : Suggestion) (now : Rat), s.suggested_update = some su →
      ∃ s2, rejectSuggestionHandler s now = some (s2, [UiMsg.success "Suggestion rejected."])
        ∧ s2.rubric = s.rubric
        ∧ s2.transcript = s.transcript ++ [⟨"system", "Suggestion rejected for " ++ su.skillId, now⟩]
        ∧ s2.suggested_update = none
        ∧ s2.session_status = s.session_status
        ∧ s2.user_details = s.user_details
        ∧ s2.summary_text = s.summary_text) := by
  refine ⟨?_, ?_, ?_⟩
  · intro s now h
    constructor <;> simp [acceptSuggestionHandler, rejectSuggestionHandler, h]
  · intro s su now h
    refine ⟨{ s with
                rubric := set_rubric_status s.rubric su.skillId su.status,
                transcript := s.transcript ++ [⟨"system", "Suggestion accepted for " ++ su.skillId, now⟩],
                suggested_update := none }, ?_, rfl, rfl, rfl, rfl, rfl, rfl⟩
    simp [acceptSuggestionHandler, h]
  · intro s su now h
    refine ⟨{ s with
                transcript := s.transcript ++ [⟨"system", "Suggestion rejected for " ++ su.skillId, now⟩],
                suggested_update := none }, ?_, rfl, rfl, rfl, rfl, rfl, rfl⟩
    simp [rejectSuggestionHandler, h]

/-- Witness for the suggestion flow on the specification scenario:
accepting the pending suggestion for item a marks it not_met, appends
the system entry and clears the suggestion. -/
theorem suggestion_accept_reject_behavior_witness :
    c8State.suggested_update = some ⟨"a", "not_met", "observed lapse"⟩
    ∧ ∃ s2, acceptSuggestionHandler c8State 2 = some (s2, [UiMsg.success "Suggestion accepted."])
        ∧ s2.rubric = set_rubric_status c8State.rubric "a" "not_met"
        ∧ s2.transcript = c8State.transcript ++ [⟨"system", "Suggestion accepted for a", 2⟩]
        ∧ s2.suggested_update = none
        ∧ s2.session_status = c8State.session_status
        ∧ s2.user_details = c8State.user_details
        ∧ s2.summary_text = c8State.summary_text :=
  ⟨rfl, suggestion_accept_reject_behavior.2.1 c8State ⟨"a", "not_met", "observed lapse"⟩ 2 rfl⟩

/-- C9: bulk resolve turns every pending rubric item into not_met
while keeping its id and skill, leaves every met or not_met item
entirely unchanged, preserves the rubric length and order, and
modifies no other field of the session. -/
theorem bulk_resolve_pending_spec (s : SessionState) :
    ((bulkResolvePendingHandler s).1.session_status = s.session_status
      ∧ (bulkResolvePendingHandler s).1.transcript = s.transcript
      ∧ (bulkResolvePendingHandler s).1.suggested_update = s.suggested_update
      ∧ (bulkResolvePendingHandler s).1.saved_session = s.saved_session
      ∧ (bulkResolvePendingHandler s).1.start_time = s.start_time
      ∧ (bulkResolvePendingHandler s).1.duration_seconds = s.duration_seconds
      ∧ (bulkResolvePendingHandler s).1.user_details = s.user_details
      ∧ (bulkResolvePendingHandler s).1.summary_text = s.summary_text)
    ∧ (bulkResolvePendingHandler s).1.rubric.length = s.rubric.length
    ∧ (∀ p ∈ s.rubric.zip (bulkResolvePendingHandler s).1.rubric,
        (p.1.status = RubricStatus.PENDING → p.2 = ⟨p.1.id, p.1.skill, RubricStatus.NOT_MET⟩)
        ∧ (p.1.status ≠ RubricStatus.PENDING → p.2 = p.1)) := by
  refine ⟨⟨rfl, rfl, rfl, rfl, rfl, rfl, rfl, rfl⟩, ?_, ?_⟩
  · simp [bulkResolvePendingHandler]
  · intro p hp
    have hrub : (bulkResolvePendingHandler s).1.rubric
        = s.rubric.map (fun r =>
            if r.status == RubricStatus.PENDING then { r with status := RubricStatus.NOT_MET } else r) := rfl
    rw [hrub] at hp
    have h2 := mem_zip_map
      (fun r => if r.status == RubricStatus.PENDING then { r with status := RubricStatus.NOT_MET } else r)
      s.rubric p hp
    rw [h2]
    constructor
    · intro hpend
      simp [hpend]
    · intro hne
      have hbeq : (p.1.status == RubricStatus.PENDING) = false := beq_eq_false_iff_ne.mpr hne
      simp [hbeq]

/-- Witness for bulk resolve on the scenario rubric with two pending
items and one met item: the pending item a becomes not_met and the
transcript is untouched. -/
theorem bulk_resolve_pending_spec_witness :
    ((⟨"a", "A", "pending"⟩, ⟨"a", "A", "not_met"⟩) : RubricItem × RubricItem).2
        = ⟨"a", "A", "not_met"⟩
    ∧ (bulkResolvePendingHandler c9State).1.transcript = c9State.transcript :=
  ⟨((bulk_resolve_pending_spec c9State).2.2 (⟨"a", "A", "pending"⟩, ⟨"a", "A", "not_met"⟩)
      (by decide)).1 (by decide),
   (bulk_resolve_pending_spec c9State).1.2.1⟩

end OSCE
